import Mathlib

/-!
Verification of the backup/restore core of the YMDownloadBot repository.

The embedding follows the source files:
  - src/backup_utils.py : backup codec (serialize, load, restore helpers)
  - src/database.py     : the Database class (Row Store)
  - src/bot.py          : restore session state machine and scheduled trigger

Python dicts parsed from JSON are modelled as association lists with unique
keys looked up by first match; writing a document with json.dumps and parsing
it back with json.loads is modelled as the identity on the JSON value, so
load_backup_file here receives the parsed JSON value directly.
-/

namespace YM

/-- JSON values, the payloads produced by json.loads in src/backup_utils.py. -/
inductive Json where
  | null
  | bool (b : Bool)
  | num (n : Int)
  | str (s : String)
  | arr (elems : List Json)
  | obj (fields : List (String × Json))

/-- Python dict.get on the field list of a JSON object: first matching key. -/
def lookupField : List (String × Json) → String → Option Json
  | [], _ => none
  | (k, v) :: rest, key => if k = key then some v else lookupField rest key

/-- Errors raised as BackupError in src/backup_utils.py. -/
inductive BackupError where
  | notObject
  | tableMismatch (declared : Option Json) (expected : String)
  | missingRows
  | rowsNotList
  | noRowsProvided
  | clearUsersFailed
  | clearDownloadsFailed

/-- Python equality test between the result of payload.get (an arbitrary JSON
value, or None when the key is absent) and a Python str: only a JSON string
with the same characters compares equal. -/
def pyEqStr : Option Json → String → Bool
  | some (.str s), t => s == t
  | _, _ => false

/-- load_backup_file, src/backup_utils.py lines 83-104, applied to the parsed
JSON value of the file. A JSON null value under the rows key is reported as a
missing key, exactly as payload.get returns None for both. -/
def load_backup_file (payload : Json) (expected_table : String) :
    Except BackupError (List Json) :=
  match payload with
  | .obj fields =>
    let table := lookupField fields "table"
    if pyEqStr table expected_table then
      match lookupField fields "rows" with
      | none => .error .missingRows
      | some .null => .error .missingRows
      | some (.arr rows) => .ok rows
      | some _ => .error .rowsNotList
    else
      .error (.tableMismatch table expected_table)
  | _ => .error .notObject

/-- BACKUP_VERSION, src/backup_utils.py line 10. -/
def BACKUP_VERSION : Int := 1

/-- The function named with a leading underscore in src/backup_utils.py lines
22-28: wraps rows into the backup document object. -/
def serializePayload (table : String) (generated_at : String) (rows : List Json) : Json :=
  .obj [("table", .str table), ("version", .num BACKUP_VERSION),
        ("generated_at", .str generated_at), ("rows", .arr rows)]

/-- Modelled from the spec: src/database.py defines no export_users,
export_downloads, clear_users, clear_downloads, bulk_insert_users or
bulk_insert_downloads methods even though src/backup_utils.py invokes them;
the Row Store is therefore modelled from the spec as two row lists with
table-scoped select-all, clear and bulk-insert operations, where a clear
operation may report failure (modelled by the two Ok flags). -/
structure Database where
  users : List Json
  downloads : List Json
  clearUsersOk : Bool
  clearDownloadsOk : Bool

/-- Modelled from the spec: select-all on the users table. -/
def Database.export_users (db : Database) : List Json := db.users

/-- Modelled from the spec: select-all on the downloads table. -/
def Database.export_downloads (db : Database) : List Json := db.downloads

/-- Modelled from the spec: clear on the users table, reporting success. -/
def Database.clear_users (db : Database) : Bool × Database :=
  if db.clearUsersOk then (true, { db with users := [] }) else (false, db)

/-- Modelled from the spec: clear on the downloads table, reporting success. -/
def Database.clear_downloads (db : Database) : Bool × Database :=
  if db.clearDownloadsOk then (true, { db with downloads := [] }) else (false, db)

/-- Modelled from the spec: bulk-insert into the users table, returning the
number of inserted rows. -/
def Database.bulk_insert_users (db : Database) (rows : List Json) : Nat × Database :=
  (rows.length, { db with users := db.users ++ rows })

/-- Modelled from the spec: bulk-insert into the downloads table. -/
def Database.bulk_insert_downloads (db : Database) (rows : List Json) : Nat × Database :=
  (rows.length, { db with downloads := db.downloads ++ rows })

/-- One written backup file: the JSON document it holds and the row count
reported next to it, src/backup_utils.py lines 56-59. -/
structure BackupFile where
  payload : Json
  count : Nat

/-- export_backup, src/backup_utils.py lines 31-59: exports the users table
and the downloads table as two backup documents. The filesystem write is
modelled by keeping the written JSON value. -/
def export_backup (db : Database) (generated_at : String) : BackupFile × BackupFile :=
  let users := db.export_users
  let downloads := db.export_downloads
  (⟨serializePayload "users" generated_at users, users.length⟩,
   ⟨serializePayload "downloads" generated_at downloads, downloads.length⟩)

/-- Row Store operations that mutate a table, recorded as a trace by the
restore helpers and the session handlers. -/
inductive StoreOp where
  | clearUsers
  | clearDownloads
  | bulkInsertUsers (rows : List Json)
  | bulkInsertDownloads (rows : List Json)
  | insertRow (table : String)
  | updateRow (table : String)

/-- restore_users, src/backup_utils.py lines 107-116: replaces the users table
wholesale. Returns the result together with the trace of store operations
executed. -/
def restore_users (db : Database) (rows : Option (List Json)) :
    Except BackupError (Nat × Database) × List StoreOp :=
  match rows with
  | none => (.error .noRowsProvided, [])
  | some rs =>
    match db.clear_users with
    | (false, _) => (.error .clearUsersFailed, [.clearUsers])
    | (true, db1) =>
      let (n, db2) := db1.bulk_insert_users rs
      (.ok (n, db2), [.clearUsers, .bulkInsertUsers rs])

/-- restore_downloads, src/backup_utils.py lines 119-128. -/
def restore_downloads (db : Database) (rows : Option (List Json)) :
    Except BackupError (Nat × Database) × List StoreOp :=
  match rows with
  | none => (.error .noRowsProvided, [])
  | some rs =>
    match db.clear_downloads with
    | (false, _) => (.error .clearDownloadsFailed, [.clearDownloads])
    | (true, db1) =>
      let (n, db2) := db1.bulk_insert_downloads rs
      (.ok (n, db2), [.clearDownloads, .bulkInsertDownloads rs])

/-- Names of the methods defined in the Database class, src/database.py
lines 5-252, transcribed in order of definition. -/
def databaseMethods : List String :=
  ["__init__", "connect", "init_db", "add_user", "update_user_activity",
   "add_download", "get_all_users", "get_user", "is_admin", "set_admin",
   "get_user_stats", "get_total_stats"]

/-- Names of the Database methods invoked by export_backup, restore_users and
restore_downloads in src/backup_utils.py lines 47-48, 112, 115, 124 and 127. -/
def backupRequiredMethods : List String :=
  ["export_users", "export_downloads", "clear_users", "clear_downloads",
   "bulk_insert_users", "bulk_insert_downloads"]

/-- Steps of a restore session, the step field of RestoreSession in
src/bot.py lines 95-104 (values "users", "downloads", "done"). -/
inductive Step where
  | users
  | downloads
  | done
deriving DecidableEq

/-- RestoreSession, src/bot.py lines 95-104. Temporary directories and message
identifiers are modelled as natural number handles. -/
structure RestoreSession where
  chat_id : Int
  step : Step
  temp_dir : Nat
  prompt_message_id : Option Nat := none
  users_restored : Option Nat := none
  downloads_restored : Option Nat := none
  users_skipped : Bool := false
  downloads_skipped : Bool := false

/-- Bot process state for the restore workflow: the restore_sessions map of
src/bot.py line 107, the set of existing temporary directories, and a counter
supplying the next directory handle created by tempfile.mkdtemp. -/
structure BotState where
  restore_sessions : Nat → Option RestoreSession
  temp_dirs : List Nat
  next_dir : Nat

/-- Pointwise update of the restore_sessions map. -/
def setSession (m : Nat → Option RestoreSession) (u : Nat)
    (s : Option RestoreSession) : Nat → Option RestoreSession :=
  fun v => if v = u then s else m v

/-- Observable effects emitted by the handlers in src/bot.py, in order. -/
inductive Event where
  | answer (chat : Int) (text : String)
  | callbackAnswer (text : String)
  | editStatus (text : String)
  | sendBackup (target : Nat)
  | promptStep (s : Step)
  | mkTempDir (d : Nat)
  | rmTempDir (d : Nat)
  | storeOp (op : StoreOp)

/-- Whether an event is the sending of a restore-input prompt. -/
def Event.isPrompt : Event → Bool
  | .promptStep _ => true
  | _ => false

/-- Whether an event mutates the Row Store. -/
def Event.isStoreOp : Event → Bool
  | .storeOp _ => true
  | _ => false

/-- Applies the store mutations recorded in an event trace to a Database:
the Row Store effect of a handler run is exactly this fold over its trace. -/
def applyStoreOps (db : Database) : List Event → Database
  | [] => db
  | .storeOp .clearUsers :: rest => applyStoreOps { db with users := [] } rest
  | .storeOp .clearDownloads :: rest => applyStoreOps { db with downloads := [] } rest
  | .storeOp (.bulkInsertUsers rs) :: rest =>
      applyStoreOps { db with users := db.users ++ rs } rest
  | .storeOp _ :: rest => applyStoreOps db rest
  | _ :: rest => applyStoreOps db rest

/-- cleanup_restore_session, src/bot.py lines 206-210: pops the session of the
user and removes its temporary directory. -/
def cleanup_restore_session (st : BotState) (user_id : Nat) : BotState × List Event :=
  match st.restore_sessions user_id with
  | none => (st, [])
  | some s =>
    ({ st with
        restore_sessions := setSession st.restore_sessions user_id none,
        temp_dirs := st.temp_dirs.filter (fun d => d ≠ s.temp_dir) },
     [.rmTempDir s.temp_dir])

/-- prompt_current_step, src/bot.py lines 171-203: sends the prompt for the
current step and records the prompt message identifier (modelled as 0). -/
def prompt_current_step (st : BotState) (user_id : Nat) : BotState × List Event :=
  match st.restore_sessions user_id with
  | none => (st, [])
  | some s =>
    match s.step with
    | .done => (st, [])
    | step =>
      let s1 : RestoreSession := { s with prompt_message_id := some 0 }
      ({ st with restore_sessions := setSession st.restore_sessions user_id (some s1) },
       [.promptStep step])

/-- finish_restore, src/bot.py lines 213-239: sends the summary message and
tears the session down via cleanup_restore_session. -/
def finish_restore (st : BotState) (user_id : Nat) : BotState × List Event :=
  match st.restore_sessions user_id with
  | none => (st, [])
  | some s =>
    let r := cleanup_restore_session st user_id
    (r.1, .answer s.chat_id "restore finished summary" :: r.2)

/-- cmd_restore_backup, src/bot.py lines 586-629. The is_admin check and the
outcome of generate_and_send_backup (which depends on the chat transport) are
inputs; everything else follows the source control flow: reject non-admins,
reject a second session, create the temporary directory and the session, send
the safety-net backup to the requesting administrator, and on failure tear the
session down before any restore prompt is sent. -/
def cmd_restore_backup (st : BotState) (user_id : Nat) (chat : Int)
    (isAdmin : Bool) (exportOk : Bool) : BotState × List Event :=
  if !isAdmin then
    (st, [.answer chat "no permission"])
  else if (st.restore_sessions user_id).isSome then
    (st, [.answer chat "restore already running"])
  else
    let dir := st.next_dir
    let session : RestoreSession := { chat_id := chat, step := .users, temp_dir := dir }
    let st1 : BotState :=
      { restore_sessions := setSession st.restore_sessions user_id (some session),
        temp_dirs := dir :: st.temp_dirs,
        next_dir := st.next_dir + 1 }
    let evs0 : List Event :=
      [.mkTempDir dir, .answer chat "creating backup of current database",
       .sendBackup user_id]
    if !exportOk then
      let r := cleanup_restore_session st1 user_id
      (r.1, evs0 ++ [.editStatus "could not create backup"] ++ r.2)
    else
      let r := prompt_current_step st1 user_id
      (r.1, evs0 ++ [.editStatus "backup sent, now send restore files"] ++ r.2)

/-- on_restore_skip_users, src/bot.py lines 632-653: marks the users step as
skipped without touching the Row Store and advances to the downloads step. -/
def on_restore_skip_users (st : BotState) (user_id : Nat) (isAdmin : Bool) :
    BotState × List Event :=
  if !isAdmin then
    (st, [.callbackAnswer "no permission"])
  else
    match st.restore_sessions user_id with
    | none => (st, [.callbackAnswer "nothing to skip"])
    | some s =>
      if s.step ≠ Step.users then (st, [.callbackAnswer "nothing to skip"])
      else
        let s1 : RestoreSession :=
          { s with users_skipped := true, users_restored := none,
                   prompt_message_id := none, step := .downloads }
        let st1 : BotState :=
          { st with restore_sessions := setSession st.restore_sessions user_id (some s1) }
        let r := prompt_current_step st1 user_id
        (r.1, [.editStatus "step 1 skipped", .callbackAnswer "step skipped",
               .answer s.chat_id "users table left unchanged"] ++ r.2)

/-- on_restore_skip_downloads, src/bot.py lines 656-677: marks the downloads
step as skipped without touching the Row Store and finishes the session. -/
def on_restore_skip_downloads (st : BotState) (user_id : Nat) (isAdmin : Bool) :
    BotState × List Event :=
  if !isAdmin then
    (st, [.callbackAnswer "no permission"])
  else
    match st.restore_sessions user_id with
    | none => (st, [.callbackAnswer "nothing to skip"])
    | some s =>
      if s.step ≠ Step.downloads then (st, [.callbackAnswer "nothing to skip"])
      else
        let s1 : RestoreSession :=
          { s with downloads_skipped := true, downloads_restored := none,
                   prompt_message_id := none, step := .done }
        let st1 : BotState :=
          { st with restore_sessions := setSession st.restore_sessions user_id (some s1) }
        let r := finish_restore st1 user_id
        (r.1, [.editStatus "step 2 skipped", .callbackAnswer "step skipped",
               .answer s.chat_id "downloads table left unchanged"] ++ r.2)

/-- No restore prompt occurs before the first backup delivery in the trace. -/
def backupBeforePrompt : List Event → Bool
  | [] => true
  | .sendBackup _ :: _ => true
  | .promptStep _ :: _ => false
  | _ :: rest => backupBeforePrompt rest

/-- C1: exporting a table via export_backup and loading the resulting document
with load_backup_file for the same table returns exactly the exported rows, in
content and order, for both the users table and the downloads table. -/
theorem c1_export_load_roundtrip (db : Database) (ts : String) :
    load_backup_file (export_backup db ts).1.payload "users" = .ok db.users ∧
    load_backup_file (export_backup db ts).2.payload "downloads" = .ok db.downloads := by
  constructor <;> rfl

/-- C2: the backup and restore core requires the six table-scoped operations
export_users, export_downloads, clear_users, clear_downloads,
bulk_insert_users and bulk_insert_downloads on Database, but none of them is
among the methods the Database class in src/database.py defines: every
required method name is missing from the defined method names. -/
theorem c2_backup_methods_missing_from_database :
    backupRequiredMethods.all (fun m => !(databaseMethods.contains m)) = true := by
  decide

/-- Shared helper: when the declared table matches the expected one and the
rows field holds a JSON array, load_backup_file returns that array. -/
theorem load_backup_file_ok_of_match (fields : List (String × Json))
    (expected : String) (rs : List Json)
    (htable : lookupField fields "table" = some (.str expected))
    (hrows : lookupField fields "rows" = some (.arr rs)) :
    load_backup_file (.obj fields) expected = .ok rs := by
  simp [load_backup_file, htable, hrows, pyEqStr]

/-- C3: a document declared for the users table is rejected with a table
mismatch error when loaded expecting the downloads table, and symmetrically;
more generally, whenever the declared table differs from the expected one,
load_backup_file never returns rows. -/
theorem c3_table_mismatch_rejected :
    (∀ fields : List (String × Json),
      lookupField fields "table" = some (.str "users") →
      load_backup_file (.obj fields) "downloads"
        = .error (.tableMismatch (some (.str "users")) "downloads")) ∧
    (∀ fields : List (String × Json),
      lookupField fields "table" = some (.str "downloads") →
      load_backup_file (.obj fields) "users"
        = .error (.tableMismatch (some (.str "downloads")) "users")) ∧
    (∀ (fields : List (String × Json)) (expected : String) (rs : List Json),
      pyEqStr (lookupField fields "table") expected = false →
      load_backup_file (.obj fields) expected ≠ .ok rs) := by
  refine ⟨?_, ?_, ?_⟩
  · intro fields h
    simp [load_backup_file, h, pyEqStr]
  · intro fields h
    simp [load_backup_file, h, pyEqStr]
  · intro fields expected rs h
    simp [load_backup_file, h]

/-- Witness for C3 at two concrete documents, one per direction. -/
theorem c3_table_mismatch_rejected_witness :
    load_backup_file (.obj [("table", .str "users"), ("rows", .arr [])]) "downloads"
      = .error (.tableMismatch (some (.str "users")) "downloads") ∧
    load_backup_file (.obj [("table", .str "downloads"), ("rows", .arr [])]) "users"
      = .error (.tableMismatch (some (.str "downloads")) "users") :=
  ⟨c3_table_mismatch_rejected.1 _ rfl, c3_table_mismatch_rejected.2.1 _ rfl⟩

/-- C4: load_backup_file fails when the document has no rows field, fails when
the rows field holds anything other than an array, and succeeds returning the
(possibly empty) array when the declared table matches and rows is an array. -/
theorem c4_rows_field_validation :
    (∀ (fields : List (String × Json)) (expected : String),
      lookupField fields "rows" = none →
      ∃ e, load_backup_file (.obj fields) expected = .error e) ∧
    (∀ (fields : List (String × Json)) (expected : String) (v : Json),
      lookupField fields "rows" = some v →
      (∀ rs : List Json, v ≠ .arr rs) →
      ∃ e, load_backup_file (.obj fields) expected = .error e) ∧
    (∀ (fields : List (String × Json)) (expected : String) (rs : List Json),
      lookupField fields "table" = some (.str expected) →
      lookupField fields "rows" = some (.arr rs) →
      load_backup_file (.obj fields) expected = .ok rs) := by
  refine ⟨?_, ?_, ?_⟩
  · intro fields expected h
    by_cases htab : pyEqStr (lookupField fields "table") expected = true
    · exact ⟨.missingRows, by simp [load_backup_file, htab, h]⟩
    · exact ⟨.tableMismatch (lookupField fields "table") expected,
        by simp [load_backup_file, htab, h]⟩
  · intro fields expected v hv hnotarr
    by_cases htab : pyEqStr (lookupField fields "table") expected = true
    · cases v with
      | null => exact ⟨.missingRows, by simp [load_backup_file, htab, hv]⟩
      | bool b => exact ⟨.rowsNotList, by simp [load_backup_file, htab, hv]⟩
      | num n => exact ⟨.rowsNotList, by simp [load_backup_file, htab, hv]⟩
      | str s => exact ⟨.rowsNotList, by simp [load_backup_file, htab, hv]⟩
      | arr xs => exact absurd rfl (hnotarr xs)
      | obj kvs => exact ⟨.rowsNotList, by simp [load_backup_file, htab, hv]⟩
    · exact ⟨.tableMismatch (lookupField fields "table") expected,
        by simp [load_backup_file, htab, hv]⟩
  · intro fields expected rs htable hrows
    exact load_backup_file_ok_of_match fields expected rs htable hrows

/-- Witness for C4: a document without a rows field fails, a document whose
rows field is a scalar fails, and a matching document with an empty rows array
loads successfully. -/
theorem c4_rows_field_validation_witness :
    (∃ e, load_backup_file (.obj [("table", .str "users")]) "users" = .error e) ∧
    (∃ e, load_backup_file
        (.obj [("table", .str "users"), ("rows", .num 3)]) "users" = .error e) ∧
    load_backup_file (.obj [("table", .str "users"), ("rows", .arr [])]) "users"
      = .ok [] :=
  ⟨c4_rows_field_validation.1 [("table", .str "users")] "users" rfl,
   c4_rows_field_validation.2.1 [("table", .str "users"), ("rows", .num 3)] "users"
     (.num 3) rfl (fun rs h => by cases h),
   c4_rows_field_validation.2.2 [("table", .str "users"), ("rows", .arr [])] "users"
     [] rfl rfl⟩

/-- C5: when the clear operation on the target table reports failure, the
restore helper returns a BackupError and its operation trace contains no
bulk-insert, so no partial replacement happens; when the clear succeeds the
trace is exactly the clear followed by the bulk-insert. -/
theorem c5_failed_clear_aborts (db : Database) (rows : List Json) :
    (db.clearUsersOk = false →
      (restore_users db (some rows)).1 = .error .clearUsersFailed ∧
      ∀ rs, StoreOp.bulkInsertUsers rs ∉ (restore_users db (some rows)).2) ∧
    (db.clearDownloadsOk = false →
      (restore_downloads db (some rows)).1 = .error .clearDownloadsFailed ∧
      ∀ rs, StoreOp.bulkInsertDownloads rs ∉ (restore_downloads db (some rows)).2) ∧
    (db.clearUsersOk = true →
      (restore_users db (some rows)).2 = [.clearUsers, .bulkInsertUsers rows]) ∧
    (db.clearDownloadsOk = true →
      (restore_downloads db (some rows)).2
        = [.clearDownloads, .bulkInsertDownloads rows]) := by
  refine ⟨?_, ?_, ?_, ?_⟩
  · intro h
    refine ⟨by simp [restore_users, Database.clear_users, h], ?_⟩
    intro rs
    simp [restore_users, Database.clear_users, h]
  · intro h
    refine ⟨by simp [restore_downloads, Database.clear_downloads, h], ?_⟩
    intro rs
    simp [restore_downloads, Database.clear_downloads, h]
  · intro h
    simp [restore_users, Database.clear_users, Database.bulk_insert_users, h]
  · intro h
    simp [restore_downloads, Database.clear_downloads, Database.bulk_insert_downloads, h]

/-- Witness for C5 at a store whose clear operations report failure and at a
store whose clear operations succeed. -/
theorem c5_failed_clear_aborts_witness :
    ((restore_users ⟨[.num 1], [], false, false⟩ (some [])).1
        = .error .clearUsersFailed ∧
      ∀ rs, StoreOp.bulkInsertUsers rs ∉ (restore_users ⟨[.num 1], [], false, false⟩ (some [])).2) ∧
    (restore_users ⟨[.num 1], [], true, true⟩ (some [.num 2])).2
      = [.clearUsers, .bulkInsertUsers [.num 2]] :=
  ⟨(c5_failed_clear_aborts ⟨[.num 1], [], false, false⟩ []).1 rfl,
   (c5_failed_clear_aborts ⟨[.num 1], [], true, true⟩ [.num 2]).2.2.1 rfl⟩

/-- C6: for an administrator with no open session, begin-restore sends the
safety-net export to the requesting administrator before any restore prompt,
and when that export-and-delivery fails no restore session entry remains for
the administrator, its temporary directory is removed, and no restore input
was ever prompted for. -/
theorem c6_restore_init_safety (st : BotState) (user : Nat) (chat : Int)
    (hno : st.restore_sessions user = none) :
    ((cmd_restore_backup st user chat true false).1.restore_sessions user = none ∧
     st.next_dir ∉ (cmd_restore_backup st user chat true false).1.temp_dirs ∧
     (cmd_restore_backup st user chat true false).2.all (fun e => !e.isPrompt) = true ∧
     Event.sendBackup user ∈ (cmd_restore_backup st user chat true false).2) ∧
    (∀ exportOk : Bool,
      backupBeforePrompt (cmd_restore_backup st user chat true exportOk).2 = true) := by
  constructor
  · refine ⟨?_, ?_, ?_, ?_⟩ <;>
      simp [cmd_restore_backup, hno, cleanup_restore_session, setSession,
        backupBeforePrompt, Event.isPrompt, List.mem_filter]
  · intro exportOk
    cases exportOk <;>
      simp [cmd_restore_backup, hno, cleanup_restore_session, prompt_current_step,
        setSession, backupBeforePrompt]

/-- A state with no restore session and no temporary directories. -/
def emptyBotState : BotState :=
  { restore_sessions := fun _ => none, temp_dirs := [], next_dir := 0 }

/-- Witness for C6 at the empty state, administrator 1, chat 5. -/
theorem c6_restore_init_safety_witness :
    ((cmd_restore_backup emptyBotState 1 5 true false).1.restore_sessions 1 = none ∧
     emptyBotState.next_dir ∉ (cmd_restore_backup emptyBotState 1 5 true false).1.temp_dirs ∧
     (cmd_restore_backup emptyBotState 1 5 true false).2.all (fun e => !e.isPrompt) = true ∧
     Event.sendBackup 1 ∈ (cmd_restore_backup emptyBotState 1 5 true false).2) ∧
    (∀ exportOk : Bool,
      backupBeforePrompt (cmd_restore_backup emptyBotState 1 5 true exportOk).2 = true) :=
  c6_restore_init_safety emptyBotState 1 5 rfl

/-- C7: a begin-restore command from an administrator who already has an
active session is rejected: the state is returned unchanged with only a
warning reply, the original session is still the one held for that
administrator, and no temporary directory is created. -/
theorem c7_session_exclusivity (st : BotState) (user : Nat) (chat : Int)
    (exportOk : Bool) (s : RestoreSession)
    (h : st.restore_sessions user = some s) :
    cmd_restore_backup st user chat true exportOk
      = (st, [Event.answer chat "restore already running"]) ∧
    (cmd_restore_backup st user chat true exportOk).1.restore_sessions user = some s ∧
    ∀ d, Event.mkTempDir d ∉ (cmd_restore_backup st user chat true exportOk).2 := by
  have h1 : cmd_restore_backup st user chat true exportOk
      = (st, [Event.answer chat "restore already running"]) := by
    simp [cmd_restore_backup, h]
  refine ⟨h1, ?_, ?_⟩
  · rw [h1]; exact h
  · intro d; rw [h1]; simp

/-- A session for administrator 1 awaiting the users step. -/
def sampleSession : RestoreSession := { chat_id := 5, step := .users, temp_dir := 0 }

/-- A state holding exactly sampleSession for administrator 1. -/
def sampleBotState : BotState :=
  { restore_sessions := fun u => if u = 1 then some sampleSession else none,
    temp_dirs := [0], next_dir := 1 }

/-- Witness for C7: a second begin-restore from administrator 1 is rejected. -/
theorem c7_session_exclusivity_witness :
    cmd_restore_backup sampleBotState 1 5 true true
      = (sampleBotState, [Event.answer 5 "restore already running"]) ∧
    (cmd_restore_backup sampleBotState 1 5 true true).1.restore_sessions 1
      = some sampleSession ∧
    ∀ d, Event.mkTempDir d ∉ (cmd_restore_backup sampleBotState 1 5 true true).2 :=
  c7_session_exclusivity sampleBotState 1 5 true sampleSession rfl

/-- C8: skipping the users step and then the downloads step emits no store
mutation at all, so replaying the store effects of the combined trace returns
the Row Store unchanged. -/
theorem c8_skip_both_steps_store_unchanged (st : BotState) (db : Database)
    (user : Nat) (s : RestoreSession) (h : st.restore_sessions user = some s)
    (hstep : s.step = Step.users) :
    ((on_restore_skip_users st user true).2
        ++ (on_restore_skip_downloads (on_restore_skip_users st user true).1 user true).2).all
        (fun e => !e.isStoreOp) = true ∧
    applyStoreOps db
      ((on_restore_skip_users st user true).2
        ++ (on_restore_skip_downloads (on_restore_skip_users st user true).1 user true).2)
      = db := by
  constructor <;>
    simp [on_restore_skip_users, on_restore_skip_downloads, h, hstep,
      prompt_current_step, finish_restore, cleanup_restore_session, setSession,
      applyStoreOps, Event.isStoreOp]

/-- Witness for C8 at a concrete state, session and store. -/
theorem c8_skip_both_steps_store_unchanged_witness :
    ((on_restore_skip_users sampleBotState 1 true).2
        ++ (on_restore_skip_downloads (on_restore_skip_users sampleBotState 1 true).1 1 true).2).all
        (fun e => !e.isStoreOp) = true ∧
    applyStoreOps ⟨[.num 1], [.num 2], true, true⟩
      ((on_restore_skip_users sampleBotState 1 true).2
        ++ (on_restore_skip_downloads (on_restore_skip_users sampleBotState 1 true).1 1 true).2)
      = ⟨[.num 1], [.num 2], true, true⟩ :=
  c8_skip_both_steps_store_unchanged sampleBotState ⟨[.num 1], [.num 2], true, true⟩
    1 sampleSession rfl rfl

/-- DEFAULT_BACKUP_CRON, src/bot.py line 51. -/
def DEFAULT_BACKUP_CRON : String := "0 9 * * MON"

/-- A cron trigger: the five schedule fields and the timezone it was built
with, the data CronTrigger.from_crontab derives from its arguments. -/
structure CronTrigger where
  fields : List String
  timezone : String
deriving DecidableEq

/-- Splits a character list on spaces, discarding empty pieces, accumulating
the current token in reverse. -/
def splitWSAux : List Char → List Char → List String
  | [], [] => []
  | [], acc => [String.mk acc.reverse]
  | c :: rest, acc =>
    if c = ' ' then
      match acc with
      | [] => splitWSAux rest []
      | _ => String.mk acc.reverse :: splitWSAux rest []
    else splitWSAux rest (c :: acc)

/-- Whitespace split as done by str.split with no argument in Python. -/
def splitWS (s : String) : List String := splitWSAux s.data []

/-- Modelled from the spec: CronTrigger.from_crontab of the external scheduler
library splits the expression on whitespace and accepts exactly five fields
(minute, hour, day-of-month, month, day-of-week), raising ValueError for any
other field count; the error is modelled as the Except error branch. -/
def CronTrigger.from_crontab (expr : String) (tz : String) :
    Except String CronTrigger :=
  let values := splitWS expr
  if values.length = 5 then .ok { fields := values, timezone := tz }
  else .error "wrong number of fields"

/-- build_backup_trigger, src/bot.py lines 81-92: returns the trigger and the
expression it was built from, falling back to DEFAULT_BACKUP_CRON when the
configured expression fails to parse; the second component collects the log
messages emitted (logging.error on the fallback path). -/
def build_backup_trigger (backup_cron_expr : String) (tz : String) :
    Except String (CronTrigger × String) × List String :=
  match CronTrigger.from_crontab backup_cron_expr tz with
  | .ok trigger => (.ok (trigger, backup_cron_expr), [])
  | .error _ =>
    (match CronTrigger.from_crontab DEFAULT_BACKUP_CRON tz with
     | .ok trigger => .ok (trigger, DEFAULT_BACKUP_CRON)
     | .error e2 => .error e2,
     ["invalid BACKUP_CRON, using default"])

/-- The default expression parses to the five fields 0 9 * * MON. -/
theorem from_crontab_default (tz : String) :
    CronTrigger.from_crontab DEFAULT_BACKUP_CRON tz
      = .ok { fields := ["0", "9", "*", "*", "MON"], timezone := tz } := rfl

/-- C9: for every malformed configured cron expression, build_backup_trigger
does not raise: it logs the problem and returns the default 09:00-every-Monday
trigger in the configured timezone together with the default expression. -/
theorem c9_trigger_fallback (expr tz e : String)
    (h : CronTrigger.from_crontab expr tz = .error e) :
    (build_backup_trigger expr tz).1
      = .ok ({ fields := ["0", "9", "*", "*", "MON"], timezone := tz },
             DEFAULT_BACKUP_CRON) ∧
    (build_backup_trigger expr tz).2 = ["invalid BACKUP_CRON, using default"] := by
  constructor <;> simp [build_backup_trigger, h, from_crontab_default]

/-- Witness for C9 at a six-field expression. -/
theorem c9_trigger_fallback_witness :
    (build_backup_trigger "0 9 * * MON TUE" "Europe/Moscow").1
      = .ok ({ fields := ["0", "9", "*", "*", "MON"], timezone := "Europe/Moscow" },
             DEFAULT_BACKUP_CRON) ∧
    (build_backup_trigger "0 9 * * MON TUE" "Europe/Moscow").2
      = ["invalid BACKUP_CRON, using default"] :=
  c9_trigger_fallback "0 9 * * MON TUE" "Europe/Moscow" "wrong number of fields" rfl

/-- C10: load_backup_file reads only the table and rows fields: two documents
agreeing on those two lookups load identically whatever their version or
generated_at fields hold, and any document whose declared table matches and
whose rows field is an array loads successfully. -/
theorem c10_version_and_timestamp_ignored :
    (∀ (expected : String) (f1 f2 : List (String × Json)),
      lookupField f1 "table" = lookupField f2 "table" →
      lookupField f1 "rows" = lookupField f2 "rows" →
      load_backup_file (.obj f1) expected = load_backup_file (.obj f2) expected) ∧
    (∀ (fields : List (String × Json)) (t : String) (rs : List Json),
      lookupField fields "table" = some (.str t) →
      lookupField fields "rows" = some (.arr rs) →
      load_backup_file (.obj fields) t = .ok rs) := by
  constructor
  · intro expected f1 f2 htab hrows
    simp only [load_backup_file, htab, hrows]
  · intro fields t rs htable hrows
    exact load_backup_file_ok_of_match fields t rs htable hrows

/-- Witness for C10: a document with no version and no generated_at loads the
same rows as one whose version is a non-integer and whose generated_at is
malformed. -/
theorem c10_version_and_timestamp_ignored_witness :
    load_backup_file (.obj [("table", .str "users"), ("rows", .arr [.num 7])]) "users"
      = load_backup_file
          (.obj [("table", .str "users"), ("version", .str "bogus"),
                 ("generated_at", .num 0), ("rows", .arr [.num 7])]) "users" ∧
    load_backup_file
        (.obj [("table", .str "users"), ("version", .str "bogus"),
               ("generated_at", .num 0), ("rows", .arr [.num 7])]) "users"
      = .ok [.num 7] :=
  ⟨c10_version_and_timestamp_ignored.1 "users"
      [("table", .str "users"), ("rows", .arr [.num 7])]
      [("table", .str "users"), ("version", .str "bogus"),
       ("generated_at", .num 0), ("rows", .arr [.num 7])] rfl rfl,
   c10_version_and_timestamp_ignored.2
      [("table", .str "users"), ("version", .str "bogus"),
       ("generated_at", .num 0), ("rows", .arr [.num 7])] "users" [.num 7] rfl rfl⟩

end YM
